import Mathlib

/-!
Verification of `misconfig-configinactiveservicedetector` (src/main.py).

The program scans YAML/JSON configuration files for top-level entries whose
value is the boolean `true` and whose key is absent from an optionally loaded
active-service list, and reports each such entry as a finding.  This file is a
shallow embedding of src/main.py: values of parsed documents become the
inductive `Value`, the filesystem and the external YAML/JSON parsers become the
abstract record `FS`, and each Python function becomes a Lean definition of the
same name.
-/

namespace Misconfig

/-- Values of a parsed YAML/JSON document, as far as the analysis in
src/main.py distinguishes them.  The analysis only ever asks whether a value
is exactly the boolean `true` (`isinstance(enabled, bool) and enabled`,
line 103), so all non-boolean shapes are interchangeable; we keep the shapes
the claims mention (strings, integers, null, lists, mappings).  Mapping keys
are modelled as strings, the shape of every document the claims quantify
over. -/
inductive Value where
  | null : Value
  | bool (b : Bool) : Value
  | int (n : Int) : Value
  | str (s : String) : Value
  | list (xs : List Value) : Value
  | dict (xs : List (String × Value)) : Value

/-- A finding, as built at src/main.py lines 105-109: exactly the three
fields `file`, `service`, `reason`. -/
structure Finding where
  file : String
  service : String
  reason : String
deriving DecidableEq, Repr

/-- The fixed reason string of src/main.py line 108. -/
def inactive_reason : String :=
  "Service is enabled in configuration but not listed as active."

/-- Result of Python `open(path)` on a path: `FileNotFoundError`
(src/main.py lines 59, 110), any other exception (lines 62, 112), or the
file's text content. -/
inductive OpenResult where
  | notFound : OpenResult
  | otherError : OpenResult
  | ok (content : String) : OpenResult

/-- The external world of src/main.py: the filesystem and the two external
parsers.  `parseYaml`/`parseJson` return `none` when `yaml.safe_load` /
`json.load` raises on that content (lines 86, 92), and the parsed document
otherwise. -/
structure FS where
  openFile : String → OpenResult
  parseYaml : String → Option Value
  parseJson : String → Option Value

/-- src/main.py lines 26-40: a service is active when no active-service set
was loaded (`active_services is None`), or when its name is a member of the
set (`service_name in active_services`). -/
def is_service_active (service_name : String) (active_services : Option (List String)) : Bool :=
  match active_services with
  | none => true
  | some s => decide (service_name ∈ s)

/-- Python `str.strip()` with no argument removes these whitespace
characters (ASCII range) from both ends. -/
def pyIsSpace (c : Char) : Bool :=
  c = ' ' || c = '\t' || c = '\n' || c = '\r' || c = '\x0b' || c = '\x0c'

/-- Python `line.strip()`: drop whitespace from both ends. -/
def strip (s : String) : String :=
  String.mk (((s.data.dropWhile pyIsSpace).reverse.dropWhile pyIsSpace).reverse)

/-- Split a character list at every occurrence of `c` (the pieces do not
contain `c`; `n + 1` pieces for `n` separators). -/
def splitOnChar : List Char → Char → List (List Char)
  | [], _ => [[]]
  | a :: rest, c =>
    if a = c then [] :: splitOnChar rest c
    else
      match splitOnChar rest c with
      | [] => [[a]]
      | h :: t => (a :: h) :: t

/-- The lines of a text file as Python iterates them, up to the line
terminators that `strip` removes anyway: pieces between newline characters. -/
def pyLines (content : String) : List String :=
  (splitOnChar content.data '\n').map String.mk

/-- src/main.py lines 42-64 (`load_active_services`): read the file, collect
the set of stripped non-blank lines (`\x7bline.strip() for line in f if
line.strip()\x7d`), return `None` when the set is empty (line 55-57), on
`FileNotFoundError` (line 59) or on any other exception (line 62).  The
Python set is modelled as a deduplicated list. -/
def load_active_services (fs : FS) (service_list_file : String) : Option (List String) :=
  match fs.openFile service_list_file with
  | OpenResult.notFound => none
  | OpenResult.otherError => none
  | OpenResult.ok content =>
    let services := (((pyLines content).map strip).filter (fun l => l ≠ "")).dedup
    if services.isEmpty then none else some services

/-- Index of the last occurrence of a character in a list, or `none`
(Python `str.rfind`, with `-1` rendered as `none`). -/
def rfindIdx : List Char → Char → Option Nat
  | [], _ => none
  | a :: rest, c =>
    match rfindIdx rest c with
    | some i => some (i + 1)
    | none => if a = c then some 0 else none

/-- The extension part of CPython `posixpath.splitext`: the suffix starting
at the last dot, provided that dot lies after the last `/` and some non-dot
character stands between them (leading dots of the basename never start an
extension). -/
def splitext_ext (p : String) : String :=
  let cs := p.data
  match rfindIdx cs '.' with
  | none => ""
  | some dotIndex =>
    let filenameIndex :=
      match rfindIdx cs '/' with
      | none => 0
      | some sepIndex => sepIndex + 1
    if filenameIndex ≤ dotIndex ∧
        ((cs.drop filenameIndex).take (dotIndex - filenameIndex)).any (fun c => c ≠ '.') then
      String.mk (cs.drop dotIndex)
    else ""

/-- `str.lower()` restricted to its ASCII action: `Char.toLower` lowercases
exactly the letters `A`-`Z`, which agrees with Python on ASCII extensions. -/
def toLowerAscii (s : String) : String :=
  String.mk (s.data.map Char.toLower)

/-- src/main.py line 80: `os.path.splitext(config_file)[1].lower()`. -/
def file_ext (p : String) : String :=
  toLowerAscii (splitext_ext p)

/-- The format dispatch of src/main.py lines 83-97 applied to content that
was read: `some (parse result)` for a recognized extension, `none` for an
unsupported one (line 95-97). -/
def parseContent (fs : FS) (ext : String) (content : String) : Option (Option Value) :=
  if ext ∈ [".yaml", ".yml"] then some (fs.parseYaml content)
  else if ext = ".json" then some (fs.parseJson content)
  else none

/-- The body of the loop at src/main.py lines 102-109 for one `(service,
enabled)` pair: emit a finding exactly when the value is the boolean `true`
and the service is not active. -/
def detect_entry (file : String) (active_services : Option (List String))
    (p : String × Value) : Option Finding :=
  match p.2 with
  | Value.bool true =>
    if is_service_active p.1 active_services then none
    else some { file := file, service := p.1, reason := inactive_reason }
  | _ => none

/-- The mapping-level detection of src/main.py lines 101-109 (the spec's
`detect(mapping, activeSet)`): the loop over `data.items()`. -/
def detect (file : String) (items : List (String × Value))
    (active_services : Option (List String)) : List Finding :=
  items.filterMap (detect_entry file active_services)

/-- src/main.py lines 101-115 after parsing: a top-level mapping is analyzed,
any other shape (including a parse failure, `none`) contributes no
findings. -/
def analyze_parsed (config_file : String) (parsed : Option Value)
    (active_services : Option (List String)) : List Finding :=
  match parsed with
  | some (Value.dict items) => detect config_file items active_services
  | _ => []

/-- src/main.py lines 67-115 (`analyze_config_file`): open the file
(`FileNotFoundError` and any other exception yield `[]`, lines 110-113),
dispatch on the lowercased extension (unsupported extension yields `[]`,
lines 95-97; a parse error yields `[]`, lines 84-94), and run the detection
loop on a top-level mapping. -/
def analyze_config_file (fs : FS) (config_file : String)
    (active_services : Option (List String)) : List Finding :=
  match fs.openFile config_file with
  | OpenResult.notFound => []
  | OpenResult.otherError => []
  | OpenResult.ok content =>
    match parseContent fs (file_ext config_file) content with
    | none => []
    | some r => analyze_parsed config_file r active_services

/-- The two values of `--format` (src/main.py line 22). -/
inductive OutFormat where
  | text : OutFormat
  | json : OutFormat
deriving DecidableEq, Repr

/-- One hexadecimal digit, lowercase (as CPython's `json` module prints). -/
def hexDigit (n : Nat) : Char :=
  if n < 10 then Char.ofNat (48 + n) else Char.ofNat (87 + n)

/-- Four-digit lowercase hexadecimal, for `\u` escapes. -/
def hex4 (n : Nat) : String :=
  String.mk [hexDigit (n / 4096 % 16), hexDigit (n / 256 % 16), hexDigit (n / 16 % 16),
    hexDigit (n % 16)]

/-- CPython `json.dumps` escaping of one character of a string, with the
default `ensure_ascii=True`: the named escapes, `\uXXXX` for other
characters outside `0x20`-`0x7e`, surrogate pairs beyond the BMP. -/
def json_escape_char (c : Char) : String :=
  if c = '"' then "\\\""
  else if c = '\\' then "\\\\"
  else if c = '\n' then "\\n"
  else if c = '\r' then "\\r"
  else if c = '\t' then "\\t"
  else if c = '\x08' then "\\b"
  else if c = '\x0c' then "\\f"
  else if c.toNat < 0x20 ∨ 0x7e < c.toNat then
    if c.toNat < 0x10000 then "\\u" ++ hex4 c.toNat
    else
      let v := c.toNat - 0x10000
      "\\u" ++ hex4 (0xd800 + v / 0x400) ++ "\\u" ++ hex4 (0xdc00 + v % 0x400)
  else String.mk [c]

/-- A JSON string literal for `s` as `json.dumps` prints it. -/
def json_quote (s : String) : String :=
  "\"" ++ String.join (s.data.map json_escape_char) ++ "\""

/-- One finding as `json.dumps(findings, indent=4)` prints it inside the
array (src/main.py line 146): an object of the three fields in insertion
order, indented by four spaces per level. -/
def finding_json (f : Finding) : String :=
  "    \x7b\n        \"file\": " ++ json_quote f.file ++
  ",\n        \"service\": " ++ json_quote f.service ++
  ",\n        \"reason\": " ++ json_quote f.reason ++ "\n    \x7d"

/-- src/main.py line 146: `json.dumps(all_inactive_services, indent=4)`.
An empty list prints as `[]`. -/
def render_json (findings : List Finding) : String :=
  if findings.isEmpty then "[]"
  else "[\n" ++ String.intercalate ",\n" (findings.map finding_json) ++ "\n]"

/-- One finding's block in text mode (src/main.py lines 151-155). -/
def finding_text (f : Finding) : String :=
  "  File: " ++ f.file ++ "\n" ++ "  Service: " ++ f.service ++ "\n" ++
  "  Reason: " ++ f.reason ++ "\n" ++ "\n"

/-- Text mode output (src/main.py lines 148-157): a header plus one block
per finding, or the fixed no-findings sentence. -/
def render_text (findings : List Finding) : String :=
  if findings.isEmpty then "No inactive service configurations found."
  else "Inactive Service Configurations Found:\n" ++ String.join (findings.map finding_text)

/-- The `output_data` computation of src/main.py lines 145-157. -/
def render_output (fmt : OutFormat) (findings : List Finding) : String :=
  match fmt with
  | OutFormat.json => render_json findings
  | OutFormat.text => render_text findings

/-- The parsed command line of src/main.py lines 14-24. -/
structure Args where
  config_files : List String
  service_list : Option String
  output : Option String
  fmt : OutFormat

/-- argparse with `nargs=+` on the positional `config_files` (src/main.py
line 19): when no config file is given, `parse_args` calls `parser.error`,
which terminates the process with exit status 2 (argparse's documented
behavior); otherwise the parsed arguments are returned. -/
def parse_args (config_files : List String) (service_list output : Option String)
    (fmt : OutFormat) : Except Nat Args :=
  if config_files.isEmpty then Except.error 2
  else Except.ok ⟨config_files, service_list, output, fmt⟩

/-- src/main.py lines 134-139: `active_services` stays `None` unless
`args.service_list` is truthy (a non-`None`, non-empty string); a truthy
path whose load returns `None` aborts the run (`none` here), otherwise the
loaded set (or `None`) is passed on (`some`). -/
def resolve_active (fs : FS) (service_list : Option String) :
    Option (Option (List String)) :=
  match service_list with
  | none => some none
  | some p =>
    if p = "" then some none
    else
      match load_active_services fs p with
      | none => none
      | some s => some (some s)

/-- The observable outcome of one run of `main()`: the exit status, the
aggregated findings, and the rendered `output_data` (`none` when the run
aborted before rendering). -/
structure RunResult where
  exitCode : Nat
  findings : List Finding
  output : Option String
deriving DecidableEq, Repr

/-- src/main.py lines 118-173 after argument parsing: the empty-file-list
check (lines 129-132, unreachable behind argparse), the active-service load
with its fatal failure (lines 134-139), the per-file analysis loop
(lines 141-143), rendering (lines 145-157), the output write with exit 1 on
failure (lines 159-166), and the final exit status (lines 170-173).
`outOk p` tells whether writing to path `p` succeeds. -/
def run_main (fs : FS) (outOk : String → Bool) (a : Args) : RunResult :=
  if a.config_files.isEmpty then
    { exitCode := 1, findings := [], output := none }
  else
    match resolve_active fs a.service_list with
    | none => { exitCode := 1, findings := [], output := none }
    | some active_services =>
      let all_inactive_services :=
        a.config_files.flatMap (fun cf => analyze_config_file fs cf active_services)
      let output_data := render_output a.fmt all_inactive_services
      let writeFailed :=
        match a.output with
        | some p => !(outOk p)
        | none => false
      if writeFailed then
        { exitCode := 1, findings := all_inactive_services, output := some output_data }
      else if all_inactive_services.isEmpty then
        { exitCode := 0, findings := all_inactive_services, output := some output_data }
      else
        { exitCode := 1, findings := all_inactive_services, output := some output_data }

/-- The whole process: argparse (exit 2 on a missing positional) followed by
the body of `main()`. -/
def python_main (fs : FS) (outOk : String → Bool) (config_files : List String)
    (service_list output : Option String) (fmt : OutFormat) : RunResult :=
  match parse_args config_files service_list output fmt with
  | Except.error code => { exitCode := code, findings := [], output := none }
  | Except.ok a => run_main fs outOk a

/-- A filesystem with no files at all. -/
def fsEmpty : FS where
  openFile := fun _ => OpenResult.notFound
  parseYaml := fun _ => none
  parseJson := fun _ => none

/-- A small concrete filesystem used to evaluate the theorems: a JSON config
(the spec's scenario config), an upper-case-extension YAML config, and an
active-service list file whose only usable line is `sshd`. -/
def fsSample : FS where
  openFile := fun p =>
    if p = "c.json" then OpenResult.ok "json-config"
    else if p = "conf.YAML" then OpenResult.ok "yaml-config"
    else if p = "svc.txt" then OpenResult.ok " sshd \n\n"
    else OpenResult.notFound
  parseYaml := fun c =>
    if c = "yaml-config" then some (Value.dict [("ftpd", Value.bool true)]) else none
  parseJson := fun c =>
    if c = "json-config" then
      some (Value.dict [("ftpd", Value.bool true), ("sshd", Value.bool true),
        ("cron", Value.bool false)])
    else none

/-- Every write destination fails. -/
def outOkNone : String → Bool := fun _ => false

/-- Every write destination succeeds. -/
def outOkAll : String → Bool := fun _ => true

lemma detect_entry_eq_some {file : String} {A : Option (List String)}
    {p : String × Value} {f : Finding} :
    detect_entry file A p = some f ↔
      p.2 = Value.bool true ∧ is_service_active p.1 A = false ∧
        f = { file := file, service := p.1, reason := inactive_reason } := by
  obtain ⟨n, v⟩ := p
  cases v with
  | bool b =>
    cases b with
    | true =>
      by_cases h : is_service_active n A = true
      · simp [detect_entry, h]
      · simp only [Bool.not_eq_true] at h
        simp [detect_entry, h]
        exact eq_comm
    | false => simp [detect_entry]
  | null => simp [detect_entry]
  | int m => simp [detect_entry]
  | str s => simp [detect_entry]
  | list xs => simp [detect_entry]
  | dict xs => simp [detect_entry]

lemma mem_detect {file : String} {items : List (String × Value)}
    {A : Option (List String)} {f : Finding} :
    f ∈ detect file items A ↔
      ∃ n v, (n, v) ∈ items ∧ v = Value.bool true ∧ is_service_active n A = false ∧
        f = { file := file, service := n, reason := inactive_reason } := by
  simp only [detect, List.mem_filterMap]
  constructor
  · rintro ⟨⟨n, v⟩, hmem, hsome⟩
    rw [detect_entry_eq_some] at hsome
    exact ⟨n, v, hmem, hsome.1, hsome.2.1, hsome.2.2⟩
  · rintro ⟨n, v, hmem, hv, hact, hf⟩
    exact ⟨⟨n, v⟩, hmem, detect_entry_eq_some.mpr ⟨hv, hact, hf⟩⟩

lemma is_service_active_eq_false_iff {n : String} {A : Option (List String)} :
    is_service_active n A = false ↔ ∃ a, A = some a ∧ n ∉ a := by
  cases A with
  | none => simp [is_service_active]
  | some a => simp [is_service_active]

lemma analyze_eq_detect {fs : FS} {cf content : String}
    {items : List (String × Value)} {A : Option (List String)}
    (hopen : fs.openFile cf = OpenResult.ok content)
    (hparse : parseContent fs (file_ext cf) content = some (some (Value.dict items))) :
    analyze_config_file fs cf A = detect cf items A := by
  simp [analyze_config_file, hopen, hparse, analyze_parsed]

lemma mem_iff_lookup_of_nodup {items : List (String × Value)} {n : String} {v : Value}
    (h : (items.map Prod.fst).Nodup) : (n, v) ∈ items ↔ items.lookup n = some v := by
  induction items with
  | nil => simp
  | cons p rest ih =>
    obtain ⟨k, w⟩ := p
    simp only [List.map_cons, List.nodup_cons] at h
    by_cases hk : n = k
    · subst hk
      rw [show List.lookup n ((n, w) :: rest) = some w by simp [List.lookup]]
      constructor
      · rintro hmem
        rcases List.mem_cons.mp hmem with heq | htail
        · simp at heq
          simp [heq]
        · exact absurd (List.mem_map.mpr ⟨(n, v), htail, rfl⟩) h.1
      · intro hw
        simp at hw
        simp [hw]
    · have hbeq : (n == k) = false := beq_eq_false_iff_ne.mpr hk
      rw [show List.lookup n ((k, w) :: rest) = List.lookup n rest by
        simp [List.lookup, hbeq]]
      constructor
      · intro hmem
        rcases List.mem_cons.mp hmem with heq | htail
        · simp at heq
          exact absurd heq.1 hk
        · exact (ih h.2).mp htail
      · intro hl
        exact List.mem_cons.mpr (Or.inr ((ih h.2).mpr hl))

lemma mem_analyze_iff (fs : FS) (cf : String) (A : Option (List String)) (f : Finding) :
    f ∈ analyze_config_file fs cf A ↔
      ∃ content items, fs.openFile cf = OpenResult.ok content ∧
        parseContent fs (file_ext cf) content = some (some (Value.dict items)) ∧
        f ∈ detect cf items A := by
  unfold analyze_config_file
  cases ho : fs.openFile cf with
  | notFound => simp [ho]
  | otherError => simp [ho]
  | ok content =>
    cases hp : parseContent fs (file_ext cf) content with
    | none => simp [ho, hp]
    | some r =>
      cases r with
      | none => simp [ho, hp, analyze_parsed]
      | some d =>
        cases d with
        | dict items => simp [ho, hp, analyze_parsed]
        | null => simp [ho, hp, analyze_parsed]
        | bool b => simp [ho, hp, analyze_parsed]
        | int m => simp [ho, hp, analyze_parsed]
        | str s => simp [ho, hp, analyze_parsed]
        | list xs => simp [ho, hp, analyze_parsed]

lemma detect_none_eq_nil (file : String) (items : List (String × Value)) :
    detect file items none = [] := by
  unfold detect
  rw [List.filterMap_eq_nil_iff]
  rintro ⟨n, v⟩ _
  cases v with
  | bool b => cases b <;> simp [detect_entry, is_service_active]
  | null => simp [detect_entry]
  | int m => simp [detect_entry]
  | str s => simp [detect_entry]
  | list xs => simp [detect_entry]
  | dict xs => simp [detect_entry]

lemma analyze_none_eq_nil (fs : FS) (cf : String) :
    analyze_config_file fs cf none = [] := by
  unfold analyze_config_file
  cases fs.openFile cf with
  | notFound => rfl
  | otherError => rfl
  | ok content =>
    cases hp : parseContent fs (file_ext cf) content with
    | none => simp [hp]
    | some r =>
      cases r with
      | none => simp [hp, analyze_parsed]
      | some d =>
        cases d <;> simp [hp, analyze_parsed, detect_none_eq_nil]

/-- C1: for every configuration mapping, active-service set and key `n` of
the mapping, `analyze_config_file` emits a finding for `n` iff the value of
`n` is the boolean `true`, the active-service set is non-null and `n` is not
a member of it; and every emitted finding carries exactly the analyzed path,
the service name and the fixed reason string. -/
theorem C1_finding_iff (fs : FS) (cf content : String) (items : List (String × Value))
    (A : Option (List String)) (n : String)
    (hopen : fs.openFile cf = OpenResult.ok content)
    (hparse : parseContent fs (file_ext cf) content = some (some (Value.dict items)))
    (hnodup : (items.map Prod.fst).Nodup)
    (hkey : n ∈ items.map Prod.fst) :
    (({ file := cf, service := n, reason := inactive_reason } : Finding) ∈
        analyze_config_file fs cf A ↔
      items.lookup n = some (Value.bool true) ∧ ∃ a, A = some a ∧ n ∉ a)
    ∧ ∀ f ∈ analyze_config_file fs cf A, f.service = n →
        f = { file := cf, service := n, reason := inactive_reason } := by
  rw [analyze_eq_detect hopen hparse]
  constructor
  · rw [mem_detect]
    constructor
    · rintro ⟨m, v, hmem, hv, hact, hf⟩
      have hm : m = n := by
        have := congrArg Finding.service hf
        simpa using this.symm
      subst hm
      subst hv
      exact ⟨(mem_iff_lookup_of_nodup hnodup).mp hmem,
        is_service_active_eq_false_iff.mp hact⟩
    · rintro ⟨hlook, hA⟩
      exact ⟨n, Value.bool true, (mem_iff_lookup_of_nodup hnodup).mpr hlook, rfl,
        is_service_active_eq_false_iff.mpr hA, rfl⟩
  · intro f hf hserv
    rcases mem_detect.mp hf with ⟨m, v, hmem, hv, hact, hfe⟩
    subst hfe
    have hm : m = n := hserv
    subst hm
    rfl

/-- C3: an entry whose value is not the boolean `true` — in particular any
non-boolean value such as the string `true`, the integer `1` or the string
`yes` — never produces a finding for its key. -/
theorem C3_strict_bool_check (cf : String) (items : List (String × Value))
    (A : Option (List String)) (n : String) (v : Value)
    (hnodup : (items.map Prod.fst).Nodup)
    (hmem : (n, v) ∈ items) (hv : v ≠ Value.bool true) :
    ∀ f ∈ detect cf items A, f.service ≠ n := by
  intro f hf
  rcases mem_detect.mp hf with ⟨m, w, hmw, hw, hact, hfe⟩
  subst hfe
  subst hw
  intro hmn
  have hm : m = n := hmn
  subst hm
  have h1 := (mem_iff_lookup_of_nodup hnodup).mp hmem
  have h2 := (mem_iff_lookup_of_nodup hnodup).mp hmw
  rw [h1] at h2
  exact hv (Option.some.inj h2)

/-- C10: detection is antitone in the active-service set: with `a ⊆ a'`,
every finding produced with active set `a'` is also produced with `a`. -/
theorem C10_antitone_in_active_set (fs : FS) (cf : String) (a a' : List String)
    (hsub : ∀ x, x ∈ a → x ∈ a') (f : Finding)
    (hf : f ∈ analyze_config_file fs cf (some a')) :
    f ∈ analyze_config_file fs cf (some a) := by
  rcases (mem_analyze_iff fs cf (some a') f).mp hf with ⟨content, items, ho, hp, hd⟩
  refine (mem_analyze_iff fs cf (some a) f).mpr ⟨content, items, ho, hp, ?_⟩
  rcases mem_detect.mp hd with ⟨n, v, hmem, hv, hact, hfe⟩
  refine mem_detect.mpr ⟨n, v, hmem, hv, ?_, hfe⟩
  simp only [is_service_active, decide_eq_false_iff_not] at hact ⊢
  exact fun hna => hact (hsub n hna)

/-- C5: `load_active_services` returns either a non-empty set whose elements
are trimmed, non-blank lines of the source, or null; and it returns null
exactly when the source is missing, unreadable, or has no usable line. -/
theorem C5_loader_contract (fs : FS) (path : String) :
    (∀ s, load_active_services fs path = some s →
        s ≠ [] ∧ ∀ x ∈ s, x ≠ "" ∧ ∃ c, fs.openFile path = OpenResult.ok c ∧
          x ∈ (pyLines c).map strip)
    ∧ (load_active_services fs path = none ↔
        fs.openFile path = OpenResult.notFound ∨
        fs.openFile path = OpenResult.otherError ∨
        ∃ c, fs.openFile path = OpenResult.ok c ∧ ∀ l ∈ pyLines c, strip l = "") := by
  cases ho : fs.openFile path with
  | notFound =>
    constructor
    · intro s hs
      rw [load_active_services, ho] at hs
      cases hs
    · simp [load_active_services, ho]
  | otherError =>
    constructor
    · intro s hs
      rw [load_active_services, ho] at hs
      cases hs
    · simp [load_active_services, ho]
  | ok c =>
    by_cases hL : ((((pyLines c).map strip).filter (fun l => l ≠ "")).dedup).isEmpty
    · constructor
      · intro s hs
        rw [load_active_services, ho] at hs
        simp only [hL, if_pos] at hs
        cases hs
      · rw [load_active_services, ho]
        simp only [hL, if_pos, true_iff]
        refine Or.inr (Or.inr ⟨c, rfl, ?_⟩)
        intro l hl
        rw [List.isEmpty_iff, List.dedup_eq_nil, List.filter_eq_nil_iff] at hL
        by_contra hne
        exact hL (strip l) (List.mem_map.mpr ⟨l, hl, rfl⟩) (by simpa using hne)
    · constructor
      · intro s hs
        rw [load_active_services, ho] at hs
        dsimp only at hs
        rw [if_neg hL, Option.some.injEq] at hs
        subst hs
        refine ⟨by simpa [List.isEmpty_iff] using hL, ?_⟩
        intro x hx
        rw [List.mem_dedup, List.mem_filter] at hx
        exact ⟨by simpa using hx.2, c, rfl, hx.1⟩
      · rw [load_active_services, ho]
        dsimp only
        rw [if_neg hL]
        constructor
        · intro hcontra
          cases hcontra
        · rintro (h | h | ⟨c', hc', hblank⟩)
          · cases h
          · cases h
          · rw [OpenResult.ok.injEq] at hc'
            subst hc'
            exfalso
            apply hL
            rw [List.isEmpty_iff, List.dedup_eq_nil, List.filter_eq_nil_iff]
            intro x hx
            rcases List.mem_map.mp hx with ⟨l, hl, rfl⟩
            simpa using hblank l hl

/-- C7: every per-file problem — a missing or unreadable file, an
unsupported extension, a parse failure, or a top-level document that is not
a mapping — makes `analyze_config_file` return an empty finding list, and
the aggregated findings of a run are the concatenation over all given files,
so the remaining files are still analyzed. -/
theorem C7_perfile_errors_nonfatal (fs : FS) (cf : String) (A : Option (List String))
    (h : fs.openFile cf = OpenResult.notFound ∨
      fs.openFile cf = OpenResult.otherError ∨
      (∃ c, fs.openFile cf = OpenResult.ok c ∧
        parseContent fs (file_ext cf) c = none) ∨
      (∃ c, fs.openFile cf = OpenResult.ok c ∧
        parseContent fs (file_ext cf) c = some none) ∨
      (∃ c d, fs.openFile cf = OpenResult.ok c ∧
        parseContent fs (file_ext cf) c = some (some d) ∧
        ∀ items, d ≠ Value.dict items)) :
    analyze_config_file fs cf A = []
    ∧ ∀ (outOk : String → Bool) (a : Args) (A' : Option (List String)),
        a.config_files ≠ [] → resolve_active fs a.service_list = some A' →
        (run_main fs outOk a).findings =
          a.config_files.flatMap (fun f => analyze_config_file fs f A') := by
  constructor
  · rw [List.eq_nil_iff_forall_not_mem]
    intro f hf
    rcases (mem_analyze_iff fs cf A f).mp hf with ⟨content, items, ho, hp, _⟩
    rcases h with h | h | ⟨c, hc, hpc⟩ | ⟨c, hc, hpc⟩ | ⟨c, d, hc, hpc, hnd⟩
    · rw [h] at ho; cases ho
    · rw [h] at ho; cases ho
    · rw [hc] at ho; rw [OpenResult.ok.injEq] at ho; subst ho
      rw [hp] at hpc; cases hpc
    · rw [hc] at ho; rw [OpenResult.ok.injEq] at ho; subst ho
      rw [hp] at hpc; cases hpc
    · rw [hc] at ho; rw [OpenResult.ok.injEq] at ho; subst ho
      rw [hp] at hpc
      rw [Option.some.injEq, Option.some.injEq] at hpc
      exact hnd items hpc.symm
  · intro outOk a A' hne hres
    unfold run_main
    rw [if_neg (by simpa [List.isEmpty_iff] using hne), hres]
    dsimp only
    split
    · rfl
    · split <;> rfl

/-- C9: file-extension matching is case-insensitive: when the extension of
the path lowercases to `.yaml` or `.yml` the file is parsed as YAML, and
when it lowercases to `.json` it is parsed as JSON, instead of being skipped
as an unsupported type. -/
theorem C9_ext_case_insensitive (fs : FS) (cf content : String)
    (A : Option (List String))
    (hopen : fs.openFile cf = OpenResult.ok content) :
    (toLowerAscii (splitext_ext cf) = ".yaml" ∨ toLowerAscii (splitext_ext cf) = ".yml" →
      analyze_config_file fs cf A = analyze_parsed cf (fs.parseYaml content) A)
    ∧ (toLowerAscii (splitext_ext cf) = ".json" →
      analyze_config_file fs cf A = analyze_parsed cf (fs.parseJson content) A) := by
  constructor
  · intro hy
    have hpc : parseContent fs (file_ext cf) content = some (fs.parseYaml content) := by
      unfold parseContent file_ext
      rcases hy with h | h <;> simp [h]
    unfold analyze_config_file
    rw [hopen]
    dsimp only
    rw [hpc]
  · intro hj
    have hpc : parseContent fs (file_ext cf) content = some (fs.parseJson content) := by
      unfold parseContent file_ext
      rw [hj]
      simp
    unfold analyze_config_file
    rw [hopen]
    dsimp only
    rw [hpc]

lemma run_main_of_resolve_none (fs : FS) (outOk : String → Bool) (a : Args)
    (hres : resolve_active fs a.service_list = none) :
    run_main fs outOk a = { exitCode := 1, findings := [], output := none } := by
  unfold run_main
  by_cases hc : a.config_files.isEmpty
  · rw [if_pos hc]
  · rw [if_neg hc, hres]

lemma run_main_eq (fs : FS) (outOk : String → Bool) (a : Args)
    (A' : Option (List String))
    (hne : ¬a.config_files.isEmpty = true)
    (hres : resolve_active fs a.service_list = some A') :
    run_main fs outOk a =
      (fun all writeFailed =>
        { exitCode := if writeFailed then 1 else if all.isEmpty then 0 else 1,
          findings := all, output := some (render_output a.fmt all) : RunResult })
        (a.config_files.flatMap (fun cf => analyze_config_file fs cf A'))
        (match a.output with
         | some p => !(outOk p)
         | none => false) := by
  unfold run_main
  rw [if_neg hne, hres]
  dsimp only
  split
  · rfl
  · split <;> rfl

lemma flatMap_analyze_none (fs : FS) (files : List String) :
    files.flatMap (fun cf => analyze_config_file fs cf none) = [] := by
  induction files with
  | nil => rfl
  | cons a l ih => simp [List.flatMap_cons, analyze_none_eq_nil, ih]

lemma resolve_active_some (fs : FS) (sl : Option String)
    (A' : Option (List String)) (hres : resolve_active fs sl = some A') :
    ∀ p, sl = some p → p ≠ "" → load_active_services fs p ≠ none := by
  intro p hp hne
  subst hp
  rw [resolve_active, if_neg hne] at hres
  intro hload
  rw [hload] at hres
  cases hres

/-- C4 (amended): when a non-empty active-service source path is supplied
and loading it yields null, `main` (after argument parsing) aborts with exit
code 1, with no findings and no output produced — the per-file analysis is
never reached. -/
theorem C4_fatal_active_load (fs : FS) (outOk : String → Bool) (a : Args)
    (p : String) (hp : a.service_list = some p) (hne : p ≠ "")
    (hload : load_active_services fs p = none) :
    run_main fs outOk a = { exitCode := 1, findings := [], output := none } := by
  apply run_main_of_resolve_none
  rw [hp, resolve_active, if_neg hne, hload]

/-- C4 counterexample: the claim as stated fails for the source path `""`
(an explicitly supplied path whose load yields null, since no file named
`""` can be opened): `if args.service_list:` at src/main.py line 135 treats
the empty string as falsy, so the run does not abort — it proceeds with no
active-service set and exits 0. -/
theorem C4_counterexample :
    load_active_services fsEmpty "" = none ∧
    (python_main fsEmpty outOkAll ["a.json"] (some "") none OutFormat.text).exitCode = 0 := by
  exact ⟨rfl, rfl⟩

/-- C6 (amended): with no `--service-list` supplied the active-service set
is null, detection produces zero findings for every file, and — provided
writing the output succeeds (in particular when writing to stdout) — the
process exits with code 0 when at least one config file was given. -/
theorem C6_null_active_all_pass (fs : FS) (outOk : String → Bool)
    (files : List String) (out : Option String) (fmt : OutFormat)
    (hwrite : ∀ p, out = some p → outOk p = true) :
    (∀ cf, analyze_config_file fs cf none = [])
    ∧ (python_main fs outOk files none out fmt).findings = []
    ∧ (files ≠ [] → (python_main fs outOk files none out fmt).exitCode = 0) := by
  refine ⟨analyze_none_eq_nil fs, ?_⟩
  unfold python_main parse_args
  by_cases hfe : files.isEmpty
  · rw [if_pos hfe]
    refine ⟨rfl, ?_⟩
    intro hne
    exact absurd (List.isEmpty_iff.mp hfe) hne
  · rw [if_neg hfe]
    dsimp only
    cases out with
    | none =>
      have h := run_main_eq fs outOk ⟨files, none, none, fmt⟩ none hfe rfl
      rw [h]
      dsimp only
      rw [flatMap_analyze_none]
      exact ⟨rfl, fun _ => rfl⟩
    | some p =>
      have hw : outOk p = true := hwrite p rfl
      have h := run_main_eq fs outOk ⟨files, none, some p, fmt⟩ none hfe rfl
      rw [h]
      dsimp only
      rw [flatMap_analyze_none, hw]
      exact ⟨rfl, fun _ => rfl⟩

/-- C6 counterexample: the claim as stated fails when `--output` points to
an unwritable destination: with no `--service-list` there are indeed zero
findings, but the output write fails and the process exits 1, not 0
(src/main.py lines 164-166). -/
theorem C6_counterexample :
    (python_main fsEmpty outOkNone ["a.json"] none (some "out.txt") OutFormat.text).findings
        = [] ∧
    (python_main fsEmpty outOkNone ["a.json"] none (some "out.txt") OutFormat.text).exitCode
        = 1 := by
  exact ⟨rfl, rfl⟩

/-- C8: when zero findings exist across all files and the run reaches the
output stage, text mode renders the fixed no-findings sentence and json mode
renders the empty JSON array — an output is produced either way. -/
theorem C8_empty_findings_output (fs : FS) (outOk : String → Bool)
    (files : List String) (sl out : Option String) (fmt : OutFormat) (o : String)
    (hfind : (python_main fs outOk files sl out fmt).findings = [])
    (hout : (python_main fs outOk files sl out fmt).output = some o) :
    (fmt = OutFormat.text → o = "No inactive service configurations found.")
    ∧ (fmt = OutFormat.json → o = "[]") := by
  unfold python_main parse_args at hfind hout
  by_cases hfe : files.isEmpty
  · rw [if_pos hfe] at hout
    cases hout
  · rw [if_neg hfe] at hfind hout
    dsimp only at hfind hout
    cases hres : resolve_active fs sl with
    | none =>
      rw [run_main_of_resolve_none fs outOk _ hres] at hout
      cases hout
    | some A' =>
      rw [run_main_eq fs outOk _ A' hfe hres] at hfind hout
      dsimp only at hfind hout
      rw [hfind, Option.some.injEq] at hout
      subst hout
      constructor
      · rintro rfl
        rfl
      · rintro rfl
        rfl

lemma exit_zero_iff (all : List Finding) (wf : Bool) :
    ((if wf then (1 : Nat) else if all.isEmpty then 0 else 1) = 0) ↔
      (wf = false ∧ all = []) := by
  cases wf with
  | true => simp
  | false =>
    by_cases h : all.isEmpty
    · simp [h, List.isEmpty_iff.mp h]
    · simp only [Bool.false_eq_true, if_false, if_neg h]
      simp only [List.isEmpty_iff] at h
      simp [h]

lemma exit_zero_or_one (all : List Finding) (wf : Bool) :
    (if wf then (1 : Nat) else if all.isEmpty then 0 else 1) = 0 ∨
    (if wf then (1 : Nat) else if all.isEmpty then 0 else 1) = 1 := by
  cases wf with
  | true => simp
  | false => by_cases h : all.isEmpty <;> simp [h]

lemma writeFailed_eq_false_iff (outOk : String → Bool) (out : Option String) :
    ((match out with
      | some p => !(outOk p)
      | none => false) = false) ↔ (∀ p, out = some p → outOk p = true) := by
  cases out with
  | none => simp
  | some p => simp

/-- C2 (amended): the exit code is 2 when no config files are given
(argparse rejects the missing positional before `main`'s own check can run);
with at least one config file the exit code is 0 or 1, and it is 0 exactly
when zero findings were produced, the active-service source — whenever a
non-empty path was specified — loaded successfully, and writing the output
succeeded; otherwise it is 1. -/
theorem C2_exit_code_policy (fs : FS) (outOk : String → Bool) (files : List String)
    (sl out : Option String) (fmt : OutFormat) :
    (files = [] → (python_main fs outOk files sl out fmt).exitCode = 2)
    ∧ (files ≠ [] →
        ((python_main fs outOk files sl out fmt).exitCode = 0 ∨
          (python_main fs outOk files sl out fmt).exitCode = 1)
        ∧ ((python_main fs outOk files sl out fmt).exitCode = 0 ↔
            (python_main fs outOk files sl out fmt).findings = [] ∧
            (∀ p, sl = some p → p ≠ "" → load_active_services fs p ≠ none) ∧
            (∀ p, out = some p → outOk p = true))) := by
  constructor
  · intro hnil
    subst hnil
    rfl
  · intro hne
    have hfe : ¬files.isEmpty = true := by simpa [List.isEmpty_iff] using hne
    unfold python_main parse_args
    rw [if_neg hfe]
    dsimp only
    cases hres : resolve_active fs sl with
    | none =>
      rw [run_main_of_resolve_none fs outOk _ hres]
      refine ⟨Or.inr rfl, ?_⟩
      constructor
      · intro h0
        exact absurd h0 (by decide)
      · rintro ⟨-, hloaded, -⟩
        exfalso
        cases sl with
        | none => rw [resolve_active] at hres; cases hres
        | some p =>
          rw [resolve_active] at hres
          by_cases hp : p = ""
          · rw [if_pos hp] at hres; cases hres
          · rw [if_neg hp] at hres
            cases hl : load_active_services fs p with
            | none => exact hloaded p rfl hp hl
            | some s => rw [hl] at hres; cases hres
    | some A' =>
      rw [run_main_eq fs outOk _ A' hfe hres]
      dsimp only
      have hloaded : ∀ p, sl = some p → p ≠ "" → load_active_services fs p ≠ none :=
        resolve_active_some fs sl A' hres
      refine ⟨exit_zero_or_one _ _, ?_⟩
      rw [exit_zero_iff]
      constructor
      · rintro ⟨hwf, hall⟩
        exact ⟨hall, hloaded, (writeFailed_eq_false_iff outOk out).mp hwf⟩
      · rintro ⟨hall, -, hok⟩
        exact ⟨(writeFailed_eq_false_iff outOk out).mpr hok, hall⟩

/-- C2 counterexample: with no config files on the command line the process
exit code is 2 (argparse usage error for the missing required positional),
not 1 as the claim states. -/
theorem C2_counterexample :
    (python_main fsEmpty outOkAll [] none none OutFormat.text).exitCode ≠ 1 ∧
    (python_main fsEmpty outOkAll [] none none OutFormat.text).exitCode = 2 := by
  exact ⟨by decide, rfl⟩

/-- Witness for C1 on the spec's scenario A: config `ftpd true, sshd true,
cron false`, active set `sshd`, key `ftpd`. -/
theorem C1_finding_iff_witness :
    (({ file := "c.json", service := "ftpd", reason := inactive_reason } : Finding) ∈
        analyze_config_file fsSample "c.json" (some ["sshd"]) ↔
      List.lookup "ftpd" [("ftpd", Value.bool true), ("sshd", Value.bool true),
          ("cron", Value.bool false)] = some (Value.bool true) ∧
        ∃ a, (some ["sshd"] : Option (List String)) = some a ∧ "ftpd" ∉ a)
    ∧ ∀ f ∈ analyze_config_file fsSample "c.json" (some ["sshd"]), f.service = "ftpd" →
        f = { file := "c.json", service := "ftpd", reason := inactive_reason } :=
  C1_finding_iff fsSample "c.json" "json-config"
    [("ftpd", Value.bool true), ("sshd", Value.bool true), ("cron", Value.bool false)]
    (some ["sshd"]) "ftpd" rfl rfl (by decide) (by decide)

/-- Witness for C2 at the empty command line. -/
theorem C2_exit_code_policy_witness :
    (python_main fsEmpty outOkAll [] none none OutFormat.text).exitCode = 2 :=
  (C2_exit_code_policy fsEmpty outOkAll [] none none OutFormat.text).1 rfl

/-- Witness for C3 on a mapping with the truthy non-boolean values the claim
lists: the string `true`, the integer `1` and the string `yes`. -/
theorem C3_strict_bool_check_witness :
    ({ file := "x.json", service := "d", reason := inactive_reason } : Finding).service
      ≠ "a" :=
  C3_strict_bool_check "x.json"
    [("a", Value.str "true"), ("b", Value.int 1), ("c", Value.str "yes"),
      ("d", Value.bool true)]
    (some []) "a" (Value.str "true") (by decide)
    (List.mem_cons_self _ _) (fun h => Value.noConfusion h)
    { file := "x.json", service := "d", reason := inactive_reason } (by decide)

/-- Witness for C4 at a missing active-service file. -/
theorem C4_fatal_active_load_witness :
    run_main fsEmpty outOkAll
        { config_files := ["a.json"], service_list := some "missing.txt",
          output := none, fmt := OutFormat.text } =
      { exitCode := 1, findings := [], output := none } :=
  C4_fatal_active_load fsEmpty outOkAll _ "missing.txt" rfl (by decide) rfl

/-- Witness for C5 on a source whose only usable line is `sshd` surrounded
by whitespace and blank lines. -/
theorem C5_loader_contract_witness :
    (["sshd"] : List String) ≠ [] ∧ ∀ x ∈ (["sshd"] : List String), x ≠ "" ∧
      ∃ c, fsSample.openFile "svc.txt" = OpenResult.ok c ∧
        x ∈ (pyLines c).map strip :=
  (C5_loader_contract fsSample "svc.txt").1 ["sshd"] rfl

/-- Witness for C6 on a run with a config file and stdout output. -/
theorem C6_null_active_all_pass_witness :
    (∀ cf, analyze_config_file fsEmpty cf none = [])
    ∧ (python_main fsEmpty outOkAll ["a.json"] none none OutFormat.text).findings = []
    ∧ ((["a.json"] : List String) ≠ [] →
        (python_main fsEmpty outOkAll ["a.json"] none none OutFormat.text).exitCode = 0) :=
  C6_null_active_all_pass fsEmpty outOkAll ["a.json"] none OutFormat.text
    (fun _ h => nomatch h)

/-- Witness for C7 on a missing file with an unsupported extension. -/
theorem C7_perfile_errors_nonfatal_witness :
    analyze_config_file fsEmpty "a.ini" (some []) = [] :=
  (C7_perfile_errors_nonfatal fsEmpty "a.ini" (some []) (Or.inl rfl)).1

/-- Witness for C8 on a no-findings run in text mode. -/
theorem C8_empty_findings_output_witness :
    (OutFormat.text = OutFormat.text →
      "No inactive service configurations found." =
        "No inactive service configurations found.")
    ∧ (OutFormat.text = OutFormat.json →
      "No inactive service configurations found." = "[]") :=
  C8_empty_findings_output fsEmpty outOkAll ["a.json"] none none OutFormat.text
    "No inactive service configurations found." rfl rfl

/-- Witness for C9 on the upper-case extension `conf.YAML`. -/
theorem C9_ext_case_insensitive_witness :
    analyze_config_file fsSample "conf.YAML" (some []) =
      analyze_parsed "conf.YAML" (fsSample.parseYaml "yaml-config") (some []) :=
  (C9_ext_case_insensitive fsSample "conf.YAML" "yaml-config" (some []) rfl).1
    (Or.inl rfl)

/-- Witness for C10: the `ftpd` finding survives shrinking the active set
from `sshd, cron` to `sshd`. -/
theorem C10_antitone_in_active_set_witness :
    ({ file := "c.json", service := "ftpd", reason := inactive_reason } : Finding) ∈
      analyze_config_file fsSample "c.json" (some ["sshd"]) :=
  C10_antitone_in_active_set fsSample "c.json" ["sshd"] ["sshd", "cron"]
    (by decide) _ (by decide)

end Misconfig
